import Mathlib

set_option linter.constructorNameAsVariable false

/-
Shallow embedding of py-moneyed (src/moneyed/classes.py): the Money value
type, its arithmetic and comparison operators, and the currency registry.

Modelling conventions:
* Python Decimal amounts are modelled as exact rationals.  The spec frames
  all arithmetic as exact decimal arithmetic with no precision loss, and the
  elementary Decimal operations used here (+, -, *, /, quantize) are exact
  on the values involved; Decimal division by a zero divisor raises -
  DivisionByZero for a nonzero dividend, InvalidOperation for the 0/0
  case - which the embedding surfaces as explicit errors.
* Dynamic Python operands are an inductive: a Money, a numeric scalar
  (int / Decimal / float / numeric string, all of which force_decimal
  converts via their text form), or some other non-numeric object.
* Each distinct Python raise site becomes a distinct error constructor:
  the TypeError about mismatched currencies (currencyMismatch), the
  TypeError about unsupported operand types (invalidOperand),
  MoneyComparisonError carrying the offending operand, CurrencyDoesNotExist
  carrying the code argument, and the decimal DivisionByZero signal.
* Currency name / countries metadata comes from the external babel
  capability and takes no part in identity, arithmetic or lookup; the
  embedding keeps the identity-bearing fields code and numeric.
-/

namespace Moneyed

/-- A currency: ISO code plus numeric code (absent for some historical
entries, mirroring add_currency calls passing None). -/
structure Currency where
  code : String
  numeric : Option String
deriving DecidableEq, Repr

/-- Currency.__eq__ : type check plus code equality (numeric and metadata
are not part of identity). -/
def Currency.eq (a b : Currency) : Bool :=
  a.code == b.code

/-- Currency.__hash__ is hash(self.code): a deterministic function of the
code string, modelled by the code itself as the hash pre-image. -/
def Currency.hashKey (c : Currency) : String :=
  c.code

/-- A Money value: exact decimal amount plus currency. -/
structure Money where
  amount : ℚ
  currency : Currency
deriving DecidableEq, Repr

/-- A dynamic Python operand as seen by the Money operators. -/
inductive Operand where
  | money (m : Money)
  | scalar (q : ℚ)
  | other
deriving DecidableEq, Repr

/-- Whether the operand is a Money instance (isinstance(other, Money)). -/
def Operand.isMoney : Operand → Bool
  | .money _ => true
  | _ => false

/-- The distinct failure signals raised by the source. -/
inductive MoneyError where
  | currencyMismatch
  | invalidOperand
  | moneyComparisonError (other : Operand)
  | currencyDoesNotExist (code : Option String)
  | divisionByZero
  | invalidOperation
deriving DecidableEq, Repr

/-- Result of Money.__truediv__: a dimensionless decimal for Money/Money,
a Money for Money/scalar. -/
inductive DivResult where
  | decimalVal (q : ℚ)
  | moneyVal (m : Money)
deriving DecidableEq, Repr

/-- force_decimal: a Decimal passes through, anything else goes through
Decimal(str(amount)); a non-numeric text form raises. -/
def force_decimal : Operand → Except MoneyError ℚ
  | .scalar q => .ok q
  | _ => .error .invalidOperand

/-- Python other == 0 as evaluated in Money.__add__: true exactly for a
numeric scalar equal to zero (Money.__eq__ with a non-Money is False, and
a non-numeric object does not equal 0). -/
def operandEqZero : Operand → Bool
  | .scalar q => q == 0
  | _ => false

/-- Money.__neg__ : negate the amount, keep the currency. -/
def Money.neg (self : Money) : Money :=
  ⟨-self.amount, self.currency⟩

/-- Money.__add__ : the zero shortcut, then the isinstance check raising
the non-Money TypeError, then the currency check raising the mismatch
TypeError, else the sum with the left currency. -/
def Money.add (self : Money) (other : Operand) : Except MoneyError Money :=
  if operandEqZero other then .ok self
  else
    match other with
    | .money m =>
        if self.currency.eq m.currency then
          .ok ⟨self.amount + m.amount, self.currency⟩
        else
          .error .currencyMismatch
    | _ => .error .invalidOperand

/-- Unary minus on an operand, as evaluated inside Money.__sub__ before
the addition: Money.__neg__ for a Money, numeric negation for a scalar,
a TypeError for a non-numeric object. -/
def Operand.negate : Operand → Except MoneyError Operand
  | .money m => .ok (.money m.neg)
  | .scalar q => .ok (.scalar (-q))
  | .other => .error .invalidOperand

/-- Money.__sub__ : self.__add__(-other). -/
def Money.sub (self : Money) (other : Operand) : Except MoneyError Money :=
  match other.negate with
  | .ok o => self.add o
  | .error e => .error e

/-- Money.__mul__ : Money times Money raises, else scale the amount by
force_decimal(other). -/
def Money.mul (self : Money) (other : Operand) : Except MoneyError Money :=
  match other with
  | .money _ => .error .invalidOperand
  | o =>
      match force_decimal o with
      | .ok q => .ok ⟨self.amount * q, self.currency⟩
      | .error e => .error e

/-- Decimal division under the default context: exact quotient for a
nonzero divisor; a zero divisor raises DivisionByZero for a nonzero
dividend and InvalidOperation for the 0/0 case. -/
def decimalDiv (a b : ℚ) : Except MoneyError ℚ :=
  if b == 0 then
    if a == 0 then .error .invalidOperation else .error .divisionByZero
  else .ok (a / b)

/-- Money.__truediv__ : Money/Money needs equal currencies and yields the
plain decimal quotient; Money/scalar scales by the reciprocal; the
division errors of decimalDiv propagate. -/
def Money.truediv (self : Money) (other : Operand) : Except MoneyError DivResult :=
  match other with
  | .money m =>
      if self.currency.eq m.currency then
        match decimalDiv self.amount m.amount with
        | .ok q => .ok (.decimalVal q)
        | .error e => .error e
      else .error .currencyMismatch
  | o =>
      match force_decimal o with
      | .ok q =>
          match decimalDiv self.amount q with
          | .ok r => .ok (.moneyVal ⟨r, self.currency⟩)
          | .error e => .error e
      | .error e => .error e

/-- Money.__rtruediv__ : dividing a non-Money by a Money always raises. -/
def Money.rtruediv (_self : Money) (_other : Operand) : Except MoneyError DivResult :=
  .error .invalidOperand

/-- Round-to-nearest integer with ties to even: the ROUND_HALF_EVEN mode
of the default Decimal context used by Decimal.quantize. -/
def roundHalfEven (q : ℚ) : ℤ :=
  if q - ⌊q⌋ < 1/2 then ⌊q⌋
  else if 1/2 < q - ⌊q⌋ then ⌊q⌋ + 1
  else if Even ⌊q⌋ then ⌊q⌋ else ⌊q⌋ + 1

/-- amount.quantize(Decimal(1e-ndigits)) under the default context:
snap to the grid of multiples of 10 ^ (-ndigits), half to even. -/
def quantize (a : ℚ) (ndigits : ℤ) : ℚ :=
  (roundHalfEven (a * 10 ^ ndigits) : ℚ) / 10 ^ ndigits

/-- Money.round : None falls back to the default 0, then quantize the
amount and keep the currency. -/
def Money.round (self : Money) (ndigits : Option ℤ) : Money :=
  ⟨quantize self.amount (ndigits.getD 0), self.currency⟩

/-- Money.__rmod__ : percentage-of.  A Money left operand raises; a scalar
left operand yields scalar * amount / 100 in the same currency. -/
def Money.rmod (self : Money) (other : Operand) : Except MoneyError Money :=
  match other with
  | .money _ => .error .invalidOperand
  | .scalar q => .ok ⟨q * self.amount / 100, self.currency⟩
  | .other => .error .invalidOperand

/-- Money.__eq__ : isinstance check (False for a non-Money, never raising),
then amount equality and currency equality. -/
def Money.eq (self : Money) (other : Operand) : Bool :=
  match other with
  | .money m => self.amount == m.amount && self.currency.eq m.currency
  | _ => false

/-- Money.__ne__ : the negation of Money.__eq__. -/
def Money.ne (self : Money) (other : Operand) : Bool :=
  !(self.eq other)

/-- Money.__lt__ : a non-Money operand raises MoneyComparisonError carrying
it; a different currency raises the mismatch TypeError; else compare
amounts. -/
def Money.lt (self : Money) (other : Operand) : Except MoneyError Bool :=
  match other with
  | .money m =>
      if self.currency.eq m.currency then
        .ok (decide (self.amount < m.amount))
      else .error .currencyMismatch
  | o => .error (.moneyComparisonError o)

/-- Money.__gt__ : symmetric to Money.__lt__. -/
def Money.gt (self : Money) (other : Operand) : Except MoneyError Bool :=
  match other with
  | .money m =>
      if self.currency.eq m.currency then
        .ok (decide (m.amount < self.amount))
      else .error .currencyMismatch
  | o => .error (.moneyComparisonError o)

/-- Money.__le__ : self < other or self == other, with any error from the
strict comparison propagating. -/
def Money.le (self : Money) (other : Operand) : Except MoneyError Bool :=
  match self.lt other with
  | .ok b => .ok (b || self.eq other)
  | .error e => .error e

/-- Money.__ge__ : self > other or self == other. -/
def Money.ge (self : Money) (other : Operand) : Except MoneyError Bool :=
  match self.gt other with
  | .ok b => .ok (b || self.eq other)
  | .error e => .error e

/-- Money.__hash__ is hash((self.amount, self.currency)): the Python hash
is a deterministic function of the numeric value of the amount and the
currency hash, modelled by that pair as the hash pre-image. -/
def Money.hashKey (m : Money) : ℚ × String :=
  (m.amount, m.currency.hashKey)


/-- The ordered sequence of add_currency calls executed at import time:
first the XYZ default currency, then the ISO table, the obsolete table,
and the codes with no ISO numeric (None).  Later entries overwrite
earlier dict entries with the same key. -/
def registrations : List (String × Option String) := [
  ("XYZ", some "999"),
  ("AED", some "784"),
  ("AFN", some "971"),
  ("ALL", some "008"),
  ("AMD", some "051"),
  ("ANG", some "532"),
  ("AOA", some "973"),
  ("ARS", some "032"),
  ("AUD", some "036"),
  ("AWG", some "533"),
  ("AZN", some "944"),
  ("BAM", some "977"),
  ("BBD", some "052"),
  ("BDT", some "050"),
  ("BGN", some "975"),
  ("BHD", some "048"),
  ("BIF", some "108"),
  ("BMD", some "060"),
  ("BND", some "096"),
  ("BOB", some "068"),
  ("BOV", some "984"),
  ("BRL", some "986"),
  ("BSD", some "044"),
  ("BTN", some "064"),
  ("BWP", some "072"),
  ("BYN", some "933"),
  ("BZD", some "084"),
  ("CAD", some "124"),
  ("CDF", some "976"),
  ("CHE", some "947"),
  ("CHF", some "756"),
  ("CHW", some "948"),
  ("CLF", some "990"),
  ("CLP", some "152"),
  ("CNY", some "156"),
  ("COP", some "170"),
  ("COU", some "970"),
  ("CRC", some "188"),
  ("CUC", some "931"),
  ("CUP", some "192"),
  ("CVE", some "132"),
  ("CZK", some "203"),
  ("DJF", some "262"),
  ("DKK", some "208"),
  ("DOP", some "214"),
  ("DZD", some "012"),
  ("EGP", some "818"),
  ("ERN", some "232"),
  ("ETB", some "230"),
  ("EUR", some "978"),
  ("FJD", some "242"),
  ("FKP", some "238"),
  ("GBP", some "826"),
  ("GEL", some "981"),
  ("GHS", some "936"),
  ("GIP", some "292"),
  ("GMD", some "270"),
  ("GNF", some "324"),
  ("GTQ", some "320"),
  ("GYD", some "328"),
  ("HKD", some "344"),
  ("HNL", some "340"),
  ("HRK", some "191"),
  ("HTG", some "332"),
  ("HUF", some "348"),
  ("IDR", some "360"),
  ("ILS", some "376"),
  ("IMP", some "Nil"),
  ("INR", some "356"),
  ("IQD", some "368"),
  ("IRR", some "364"),
  ("ISK", some "352"),
  ("JMD", some "388"),
  ("JOD", some "400"),
  ("JPY", some "392"),
  ("KES", some "404"),
  ("KGS", some "417"),
  ("KHR", some "116"),
  ("KMF", some "174"),
  ("KPW", some "408"),
  ("KRW", some "410"),
  ("KWD", some "414"),
  ("KYD", some "136"),
  ("KZT", some "398"),
  ("LAK", some "418"),
  ("LBP", some "422"),
  ("LKR", some "144"),
  ("LRD", some "430"),
  ("LSL", some "426"),
  ("LYD", some "434"),
  ("MAD", some "504"),
  ("MDL", some "498"),
  ("MGA", some "969"),
  ("MKD", some "807"),
  ("MMK", some "104"),
  ("MNT", some "496"),
  ("MOP", some "446"),
  ("MUR", some "480"),
  ("MVR", some "462"),
  ("MWK", some "454"),
  ("MXN", some "484"),
  ("MXV", some "979"),
  ("MYR", some "458"),
  ("MZN", some "943"),
  ("NAD", some "516"),
  ("NGN", some "566"),
  ("NIO", some "558"),
  ("NOK", some "578"),
  ("NPR", some "524"),
  ("NZD", some "554"),
  ("OMR", some "512"),
  ("PAB", some "590"),
  ("PEN", some "604"),
  ("PGK", some "598"),
  ("PHP", some "608"),
  ("PKR", some "586"),
  ("PLN", some "985"),
  ("PYG", some "600"),
  ("QAR", some "634"),
  ("RON", some "946"),
  ("RSD", some "941"),
  ("RUB", some "643"),
  ("RWF", some "646"),
  ("SAR", some "682"),
  ("SBD", some "090"),
  ("SCR", some "690"),
  ("SDG", some "938"),
  ("SEK", some "752"),
  ("SGD", some "702"),
  ("SHP", some "654"),
  ("SLL", some "694"),
  ("SOS", some "706"),
  ("SRD", some "968"),
  ("SSP", some "728"),
  ("SVC", some "222"),
  ("SYP", some "760"),
  ("SZL", some "748"),
  ("THB", some "764"),
  ("TJS", some "972"),
  ("TMT", some "934"),
  ("TND", some "788"),
  ("TOP", some "776"),
  ("TRY", some "949"),
  ("TTD", some "780"),
  ("TVD", some "Nil"),
  ("TWD", some "901"),
  ("TZS", some "834"),
  ("UAH", some "980"),
  ("UGX", some "800"),
  ("USD", some "840"),
  ("USN", some "997"),
  ("UYI", some "940"),
  ("UYU", some "858"),
  ("UZS", some "860"),
  ("VND", some "704"),
  ("VUV", some "548"),
  ("WST", some "882"),
  ("XAF", some "950"),
  ("XAG", some "961"),
  ("XAU", some "959"),
  ("XBA", some "955"),
  ("XBB", some "956"),
  ("XBC", some "957"),
  ("XBD", some "958"),
  ("XCD", some "951"),
  ("XDR", some "960"),
  ("XFO", some "Nil"),
  ("XFU", some "Nil"),
  ("XOF", some "952"),
  ("XPD", some "964"),
  ("XPF", some "953"),
  ("XPT", some "962"),
  ("XSU", some "994"),
  ("XTS", some "963"),
  ("XUA", some "965"),
  ("XXX", some "999"),
  ("XXX", some "999"),
  ("YER", some "886"),
  ("ZAR", some "710"),
  ("ZMW", some "967"),
  ("ZWN", some "942"),
  ("ADP", some "020"),
  ("AFA", some "004"),
  ("ALK", some "008"),
  ("AON", some "024"),
  ("AOR", some "982"),
  ("ARA", some "032"),
  ("ARP", some "032"),
  ("ATS", some "040"),
  ("AZM", some "031"),
  ("BAD", some "070"),
  ("BEF", some "056"),
  ("BGL", some "100"),
  ("BRC", some "076"),
  ("BRE", some "076"),
  ("BRN", some "076"),
  ("BRR", some "987"),
  ("BYR", some "974"),
  ("CLE", some "152"),
  ("CSD", some "891"),
  ("CSK", some "200"),
  ("CYP", some "196"),
  ("DDM", some "278"),
  ("DEM", some "276"),
  ("ECS", some "218"),
  ("ECV", some "983"),
  ("EEK", some "233"),
  ("ESA", some "996"),
  ("ESB", some "995"),
  ("ESP", some "020"),
  ("FIM", some "246"),
  ("FRF", some "250"),
  ("GHC", some "288"),
  ("GRD", some "300"),
  ("GWP", some "624"),
  ("HRD", some "191"),
  ("IEP", some "372"),
  ("ITL", some "380"),
  ("LTL", some "440"),
  ("LUF", some "442"),
  ("LVL", some "428"),
  ("MGF", some "450"),
  ("MLF", some "466"),
  ("MRO", some "478"),
  ("MTL", some "470"),
  ("MZM", some "508"),
  ("NLG", some "528"),
  ("PEI", some "604"),
  ("PLZ", some "616"),
  ("PTE", some "620"),
  ("ROL", some "642"),
  ("RUR", some "810"),
  ("SDD", some "736"),
  ("SIT", some "705"),
  ("SKK", some "703"),
  ("SRG", some "740"),
  ("STD", some "678"),
  ("TJR", some "762"),
  ("TMM", some "795"),
  ("TPE", some "626"),
  ("TRL", some "792"),
  ("UAK", some "804"),
  ("USS", some "998"),
  ("VEB", some "862"),
  ("VEF", some "937"),
  ("VNN", some "704"),
  ("XEU", some "954"),
  ("YDD", some "710"),
  ("YUM", some "891"),
  ("YUN", some "890"),
  ("ZAL", some "991"),
  ("ZMK", some "894"),
  ("ZRN", some "180"),
  ("ZRZ", some "180"),
  ("ZWD", some "716"),
  ("ZWL", some "932"),
  ("ZWR", some "935"),
  ("AOK", none),
  ("ARL", none),
  ("ARM", none),
  ("BAN", none),
  ("BEC", none),
  ("BEL", none),
  ("BGM", none),
  ("BGO", none),
  ("BOL", none),
  ("BOP", none),
  ("BRB", none),
  ("BRZ", none),
  ("BUK", none),
  ("BYB", none),
  ("CNH", none),
  ("CNX", none),
  ("GEK", none),
  ("GNS", none),
  ("GQE", none),
  ("GWE", none),
  ("ILP", none),
  ("ILR", none),
  ("ISJ", none),
  ("KRH", none),
  ("KRO", none),
  ("LTT", none),
  ("LUC", none),
  ("LUL", none),
  ("LVR", none),
  ("MAF", none),
  ("MCF", none),
  ("MDC", none),
  ("MKN", none),
  ("MRU", none),
  ("MTP", none),
  ("MVP", none),
  ("MXP", none),
  ("MZE", none),
  ("NIC", none),
  ("PES", none),
  ("RHD", none),
  ("SDP", none),
  ("STN", none),
  ("SUR", none),
  ("UGS", none),
  ("UYP", none),
  ("UYW", none),
  ("VES", none),
  ("XRE", none),
  ("YUD", none),
  ("YUR", none),
]

/-- The CURRENCIES dict after startup population: lookup by code, the
last registration for a code winning. -/
def CURRENCIES (code : String) : Option Currency :=
  (registrations.reverse.find? fun r => r.1 == code).map fun r => ⟨r.1, r.2⟩

/-- The CURRENCIES_BY_ISO dict after startup population: lookup by the
numeric string, the last registration for a numeric winning.  Entries
registered with numeric None sit under the None key, which a string
lookup never matches. -/
def CURRENCIES_BY_ISO (iso : String) : Option Currency :=
  (registrations.reverse.find? fun r => r.2 == some iso).map fun r => ⟨r.1, r.2⟩

/-- Python truthiness of the iso argument: None and the empty string are
falsy. -/
def isoTruthy : Option String → Bool
  | none => false
  | some s => !(s == "")

/-- get_currency(code=None, iso=None): a truthy iso selects the numeric
index, else the code index (an absent code is not a key); a KeyError in
either becomes CurrencyDoesNotExist(code) - carrying the code argument,
whatever the lookup key was. -/
def get_currency (code : Option String) (iso : Option String) : Except MoneyError Currency :=
  match (if isoTruthy iso then CURRENCIES_BY_ISO (iso.getD "") else code.bind CURRENCIES) with
  | some cur => .ok cur
  | none => .error (.currencyDoesNotExist code)

/-- lookup_by_code of the spec: get_currency with only a code. -/
def lookup_by_code (code : String) : Except MoneyError Currency :=
  get_currency (some code) none

/-- lookup_by_numeric of the spec: get_currency with only an iso numeric. -/
def lookup_by_numeric (iso : String) : Except MoneyError Currency :=
  get_currency none (some iso)

/-- The registered USD currency object, CURRENCIES at key USD. -/
def usd : Currency := ⟨"USD", some "840"⟩

/-- The registered EUR currency object, CURRENCIES at key EUR. -/
def eur : Currency := ⟨"EUR", some "978"⟩


/-- Searching a list succeeds whenever some member satisfies the
predicate, and the found element satisfies it. -/
theorem find?_exists_of_mem {α : Type} {p : α → Bool} :
    ∀ {l : List α} {a : α}, a ∈ l → p a = true →
      ∃ b, l.find? p = some b ∧ p b = true := by
  intro l
  induction l with
  | nil => intro a ha _; cases ha
  | cons x xs ih =>
      intro a ha hp
      cases hx : p x with
      | true => exact ⟨x, List.find?_cons_of_pos _ hx, hx⟩
      | false =>
          rcases List.mem_cons.mp ha with rfl | hmem
          · rw [hx] at hp; cases hp
          · rcases ih hmem hp with ⟨b, hb, hpb⟩
            exact ⟨b, by rw [List.find?_cons_of_neg _ (by simp [hx]), hb], hpb⟩

/-- Claim C1: Money.__add__ returns the left Money unchanged when the
right operand is the numeric value zero; adds the amounts and keeps the
currency for an equal-currency Money; fails with the currency-mismatch
error for a different-currency Money; fails with the invalid-operand
error for any non-zero, non-Money operand. -/
theorem claim_C1_add (a : Money) :
    (∀ q : ℚ, q = 0 → a.add (.scalar q) = .ok a) ∧
    (∀ b : Money, a.currency.code = b.currency.code →
      a.add (.money b) = .ok ⟨a.amount + b.amount, a.currency⟩) ∧
    (∀ b : Money, a.currency.code ≠ b.currency.code →
      a.add (.money b) = .error .currencyMismatch) ∧
    (∀ q : ℚ, q ≠ 0 → a.add (.scalar q) = .error .invalidOperand) ∧
    (a.add .other = .error .invalidOperand) := by
  refine ⟨?_, ?_, ?_, ?_, ?_⟩
  · intro q hq; subst hq; simp [Money.add, operandEqZero]
  · intro b h; simp [Money.add, operandEqZero, Currency.eq, h]
  · intro b h; simp [Money.add, operandEqZero, Currency.eq, h]
  · intro q hq; simp [Money.add, operandEqZero, hq]
  · simp [Money.add, operandEqZero]

/-- Claim C1 witness at concrete inputs. -/
theorem claim_C1_add_witness :
    (Money.mk 1 usd).add (.scalar 0) = .ok (Money.mk 1 usd) ∧
    (Money.mk 1 usd).add (.money ⟨2, usd⟩) = .ok ⟨1 + 2, usd⟩ ∧
    (Money.mk 1 usd).add (.money ⟨1, eur⟩) = .error .currencyMismatch ∧
    (Money.mk 1 usd).add (.scalar 5) = .error .invalidOperand ∧
    (Money.mk 1 usd).add .other = .error .invalidOperand :=
  ⟨(claim_C1_add _).1 0 rfl,
   (claim_C1_add _).2.1 ⟨2, usd⟩ rfl,
   (claim_C1_add _).2.2.1 ⟨1, eur⟩ (by decide),
   (claim_C1_add _).2.2.2.1 5 (by norm_num),
   (claim_C1_add _).2.2.2.2⟩

/-- Claim C2: for two Money values sharing a currency code, addition is
commutative up to Money equality, and subtracting one addend from the sum
gives back the other addend exactly. -/
theorem claim_C2_add_comm_sub_roundtrip (m1 m2 : Money)
    (h : m1.currency.code = m2.currency.code) :
    (∃ s1 s2 : Money, m1.add (.money m2) = .ok s1 ∧ m2.add (.money m1) = .ok s2 ∧
      s1.eq (.money s2) = true) ∧
    (∃ s r : Money, m1.add (.money m2) = .ok s ∧ s.sub (.money m2) = .ok r ∧
      r.eq (.money m1) = true) := by
  constructor
  · refine ⟨⟨m1.amount + m2.amount, m1.currency⟩,
      ⟨m2.amount + m1.amount, m2.currency⟩, ?_, ?_, ?_⟩
    · simp [Money.add, operandEqZero, Currency.eq, h]
    · simp [Money.add, operandEqZero, Currency.eq, h]
    · simp [Money.eq, Currency.eq, h, add_comm]
  · refine ⟨⟨m1.amount + m2.amount, m1.currency⟩,
      ⟨m1.amount + m2.amount + -m2.amount, m1.currency⟩, ?_, ?_, ?_⟩
    · simp [Money.add, operandEqZero, Currency.eq, h]
    · simp [Money.sub, Operand.negate, Money.neg, Money.add, operandEqZero,
        Currency.eq, h]
    · simp [Money.eq, Currency.eq]

/-- Claim C2 witness at concrete inputs. -/
theorem claim_C2_witness :
    (∃ s1 s2 : Money,
      (Money.mk 3 usd).add (.money ⟨4, usd⟩) = .ok s1 ∧
      (Money.mk 4 usd).add (.money ⟨3, usd⟩) = .ok s2 ∧
      s1.eq (.money s2) = true) ∧
    (∃ s r : Money,
      (Money.mk 3 usd).add (.money ⟨4, usd⟩) = .ok s ∧
      s.sub (.money ⟨4, usd⟩) = .ok r ∧ r.eq (.money (Money.mk 3 usd)) = true) :=
  claim_C2_add_comm_sub_roundtrip ⟨3, usd⟩ ⟨4, usd⟩ rfl

/-- Claim C3: scaling a Money by a nonzero decimal and then dividing by
the same decimal gives back the original Money exactly. -/
theorem claim_C3_mul_div_roundtrip (m : Money) (d : ℚ) (hd : d ≠ 0) :
    ∃ p r : Money, m.mul (.scalar d) = .ok p ∧
      p.truediv (.scalar d) = .ok (.moneyVal r) ∧ r.eq (.money m) = true := by
  refine ⟨⟨m.amount * d, m.currency⟩, ⟨m.amount * d / d, m.currency⟩, ?_, ?_, ?_⟩
  · simp [Money.mul, force_decimal]
  · simp [Money.truediv, decimalDiv, force_decimal, hd]
  · simp [Money.eq, Currency.eq, mul_div_cancel_right₀ _ hd]

/-- Claim C3 witness: a concrete roundtrip with d = 3. -/
theorem claim_C3_witness :
    ∃ p r : Money, (Money.mk 7 usd).mul (.scalar 3) = .ok p ∧
      p.truediv (.scalar 3) = .ok (.moneyVal r) ∧
      r.eq (.money (Money.mk 7 usd)) = true :=
  claim_C3_mul_div_roundtrip ⟨7, usd⟩ 3 (by norm_num)

/-- Claim C10: equality against any non-Money operand is False and
inequality is True, with no error raised. -/
theorem claim_C10_eq_non_money (m : Money) (v : Operand) (h : v.isMoney = false) :
    m.eq v = false ∧ m.ne v = true := by
  cases v with
  | money mm => simp [Operand.isMoney] at h
  | scalar q => simp [Money.eq, Money.ne]
  | other => simp [Money.eq, Money.ne]

/-- Claim C10 witness at concrete inputs. -/
theorem claim_C10_witness :
    (Money.mk 1 usd).eq .other = false ∧ (Money.mk 1 usd).ne .other = true :=
  claim_C10_eq_non_money ⟨1, usd⟩ .other rfl


/-- Claim C5: every ordering operator fails with MoneyComparisonError
carrying the operand when it is not a Money, fails with the currency
mismatch error when the currencies differ, and returns the ordering of
the amounts when the currencies agree. -/
theorem claim_C5_ordering (a : Money) :
    (∀ v : Operand, v.isMoney = false →
      a.lt v = .error (.moneyComparisonError v) ∧
      a.gt v = .error (.moneyComparisonError v) ∧
      a.le v = .error (.moneyComparisonError v) ∧
      a.ge v = .error (.moneyComparisonError v)) ∧
    (∀ b : Money, a.currency.code ≠ b.currency.code →
      a.lt (.money b) = .error .currencyMismatch ∧
      a.gt (.money b) = .error .currencyMismatch ∧
      a.le (.money b) = .error .currencyMismatch ∧
      a.ge (.money b) = .error .currencyMismatch) ∧
    (∀ b : Money, a.currency.code = b.currency.code →
      (∃ r, a.lt (.money b) = .ok r ∧ (r = true ↔ a.amount < b.amount)) ∧
      (∃ r, a.gt (.money b) = .ok r ∧ (r = true ↔ b.amount < a.amount)) ∧
      (∃ r, a.le (.money b) = .ok r ∧ (r = true ↔ a.amount ≤ b.amount)) ∧
      (∃ r, a.ge (.money b) = .ok r ∧ (r = true ↔ b.amount ≤ a.amount))) := by
  refine ⟨?_, ?_, ?_⟩
  · intro v hv
    cases v with
    | money mm => simp [Operand.isMoney] at hv
    | scalar q => simp [Money.lt, Money.gt, Money.le, Money.ge]
    | other => simp [Money.lt, Money.gt, Money.le, Money.ge]
  · intro b h
    simp [Money.lt, Money.gt, Money.le, Money.ge, Currency.eq, h]
  · intro b h
    refine ⟨⟨decide (a.amount < b.amount), by simp [Money.lt, Currency.eq, h], by simp⟩,
            ⟨decide (b.amount < a.amount), by simp [Money.gt, Currency.eq, h], by simp⟩,
            ⟨decide (a.amount < b.amount) || a.eq (.money b), ?_, ?_⟩,
            ⟨decide (b.amount < a.amount) || a.eq (.money b), ?_, ?_⟩⟩
    · simp [Money.le, Money.lt, Currency.eq, h]
    · simp only [Bool.or_eq_true, decide_eq_true_eq, Money.eq, Currency.eq, h,
        beq_self_eq_true, Bool.and_true, beq_iff_eq]
      exact ⟨fun hh => hh.elim le_of_lt le_of_eq, fun hh => hh.lt_or_eq⟩
    · simp [Money.ge, Money.gt, Currency.eq, h]
    · simp only [Bool.or_eq_true, decide_eq_true_eq, Money.eq, Currency.eq, h,
        beq_self_eq_true, Bool.and_true, beq_iff_eq]
      exact ⟨fun hh => hh.elim le_of_lt (fun e => le_of_eq e.symm),
             fun hh => (hh.lt_or_eq).imp id Eq.symm⟩

/-- Claim C5 witness at concrete inputs. -/
theorem claim_C5_witness :
    ((Money.mk 1 usd).lt .other = .error (.moneyComparisonError .other) ∧
     (Money.mk 1 usd).gt .other = .error (.moneyComparisonError .other) ∧
     (Money.mk 1 usd).le .other = .error (.moneyComparisonError .other) ∧
     (Money.mk 1 usd).ge .other = .error (.moneyComparisonError .other)) ∧
    ((Money.mk 1 usd).lt (.money ⟨1, eur⟩) = .error .currencyMismatch ∧
     (Money.mk 1 usd).gt (.money ⟨1, eur⟩) = .error .currencyMismatch ∧
     (Money.mk 1 usd).le (.money ⟨1, eur⟩) = .error .currencyMismatch ∧
     (Money.mk 1 usd).ge (.money ⟨1, eur⟩) = .error .currencyMismatch) ∧
    ((∃ r, (Money.mk 1 usd).lt (.money ⟨2, usd⟩) = .ok r ∧
        (r = true ↔ (1:ℚ) < 2)) ∧
     (∃ r, (Money.mk 1 usd).gt (.money ⟨2, usd⟩) = .ok r ∧
        (r = true ↔ (2:ℚ) < 1)) ∧
     (∃ r, (Money.mk 1 usd).le (.money ⟨2, usd⟩) = .ok r ∧
        (r = true ↔ (1:ℚ) ≤ 2)) ∧
     (∃ r, (Money.mk 1 usd).ge (.money ⟨2, usd⟩) = .ok r ∧
        (r = true ↔ (2:ℚ) ≤ 1))) :=
  ⟨(claim_C5_ordering ⟨1, usd⟩).1 .other rfl,
   (claim_C5_ordering ⟨1, usd⟩).2.1 ⟨1, eur⟩ (by decide),
   (claim_C5_ordering ⟨1, usd⟩).2.2 ⟨2, usd⟩ rfl⟩

/-- Claim C6: scalar-percent-of-Money yields scalar * amount / 100 in the
same currency, the worked example 5 percent of Money 200 USD is
Money 10 USD, and a Money left operand raises the invalid-operand
TypeError. -/
theorem claim_C6_rmod :
    (∀ (m : Money) (s : ℚ),
      m.rmod (.scalar s) = .ok ⟨s * m.amount / 100, m.currency⟩) ∧
    (Money.rmod ⟨200, usd⟩ (.scalar 5) = .ok ⟨10, usd⟩) ∧
    (∀ (m b : Money), m.rmod (.money b) = .error .invalidOperand) := by
  refine ⟨fun m s => rfl, ?_, fun m b => rfl⟩
  have h : (5:ℚ) * 200 / 100 = 10 := by norm_num
  simp [Money.rmod, h]

/-- Claim C8: Money equality holds iff the amounts and the currency codes
agree, zero amounts in different currencies are unequal, and equal Money
values have equal hash pre-images. -/
theorem claim_C8_eq_hash :
    (∀ m1 m2 : Money, m1.eq (.money m2) = true ↔
      (m1.amount = m2.amount ∧ m1.currency.code = m2.currency.code)) ∧
    ((Money.mk 0 usd).eq (.money ⟨0, eur⟩) = false) ∧
    (∀ m1 m2 : Money, m1.eq (.money m2) = true → m1.hashKey = m2.hashKey) := by
  refine ⟨?_, ?_, ?_⟩
  · intro m1 m2; simp [Money.eq, Currency.eq]
  · simp [Money.eq, Currency.eq, usd, eur]
  · intro m1 m2 h
    simp [Money.eq, Currency.eq] at h
    simp [Money.hashKey, Currency.hashKey, h.1, h.2]

/-- Claim C8 witness: two structurally different but equal Money values
share the hash pre-image. -/
theorem claim_C8_witness :
    (Money.mk 1 usd).hashKey = (Money.mk 1 ⟨"USD", none⟩).hashKey :=
  (claim_C8_eq_hash).2.2 ⟨1, usd⟩ ⟨1, ⟨"USD", none⟩⟩ (by simp [Money.eq, Currency.eq, usd])


/-- The half-even integer rounding lands within half a unit of its
argument. -/
theorem roundHalfEven_dist (q : ℚ) : |q - (roundHalfEven q : ℚ)| ≤ 1/2 := by
  have h0 : (⌊q⌋ : ℚ) ≤ q := Int.floor_le q
  have h1 : q < ⌊q⌋ + 1 := Int.lt_floor_add_one q
  unfold roundHalfEven
  split_ifs with hlt hgt hev
  · rw [abs_of_nonneg (by linarith)]; linarith
  · push_cast
    rw [abs_of_nonpos (by linarith)]; linarith
  · rw [abs_of_nonneg (by linarith)]; linarith
  · push_cast
    rw [abs_of_nonpos (by linarith)]; linarith

/-- At an exact midpoint the half-even integer rounding picks the even
neighbour. -/
theorem roundHalfEven_tie (q : ℚ) (h : |q - (roundHalfEven q : ℚ)| = 1/2) :
    Even (roundHalfEven q) := by
  have h0 : (⌊q⌋ : ℚ) ≤ q := Int.floor_le q
  have h1 : q < ⌊q⌋ + 1 := Int.lt_floor_add_one q
  unfold roundHalfEven at h ⊢
  split_ifs at h ⊢ with hlt hgt hev
  · exfalso; rw [abs_of_nonneg (by linarith)] at h; linarith
  · exfalso; push_cast at h; rw [abs_of_nonpos (by linarith)] at h; linarith
  · exact hev
  · exact Int.even_add_one.mpr hev

/-- quantize produces an integer multiple of the grid step, at distance at
most half a step from the argument, the multiple even at an exact tie. -/
theorem quantize_spec (a : ℚ) (nd : ℤ) :
    ∃ k : ℤ, quantize a nd = (k : ℚ) / 10 ^ nd ∧
      |a - quantize a nd| ≤ 1 / (2 * 10 ^ nd) ∧
      (|a - quantize a nd| = 1 / (2 * 10 ^ nd) → Even k) := by
  have hp : (0:ℚ) < 10 ^ nd := zpow_pos (by norm_num) nd
  have key : a - quantize a nd =
      (a * 10 ^ nd - (roundHalfEven (a * 10 ^ nd) : ℚ)) / 10 ^ nd := by
    rw [quantize]; field_simp
  have hhalf : (1:ℚ) / (2 * 10 ^ nd) * 10 ^ nd = 1/2 := by
    field_simp
    ring
  refine ⟨roundHalfEven (a * 10 ^ nd), rfl, ?_, ?_⟩
  · rw [key, abs_div, abs_of_pos hp, div_le_iff₀ hp, hhalf]
    exact roundHalfEven_dist _
  · intro h
    rw [key, abs_div, abs_of_pos hp, div_eq_iff hp.ne'] at h
    rw [hhalf] at h
    exact roundHalfEven_tie _ h

/-- Claim C7: round keeps the currency; an omitted or None ndigits means
zero digits; the rounded amount is an integer multiple of
10 ^ (-ndigits), within half a grid step of the original amount, the
multiple even at an exact tie (the half-even mode of the default Decimal
context); ndigits may be negative; and the worked example 1.005 USD
rounded to 2 digits is 1.00 USD. -/
theorem claim_C7_round (m : Money) (nd : ℤ) :
    (m.round (some nd)).currency = m.currency ∧
    m.round none = m.round (some 0) ∧
    (∃ k : ℤ, (m.round (some nd)).amount = (k : ℚ) / 10 ^ nd ∧
      |m.amount - (m.round (some nd)).amount| ≤ 1 / (2 * 10 ^ nd) ∧
      (|m.amount - (m.round (some nd)).amount| = 1 / (2 * 10 ^ nd) → Even k)) ∧
    (Money.mk (1005/1000) usd).round (some 2) = ⟨1, usd⟩ ∧
    (Money.mk 25 usd).round (some (-1)) = ⟨20, usd⟩ := by
  refine ⟨rfl, rfl, quantize_spec m.amount nd, ?_, ?_⟩
  · simp only [Money.round, quantize, roundHalfEven, Option.getD]
    norm_num [Int.even_iff]
  · simp only [Money.round, quantize, roundHalfEven, Option.getD]
    norm_num [Int.even_iff]


/-- Claim C4 counterexample: with equal currencies but a zero divisor
amount, and likewise with the scalar zero, division raises a decimal
signal - DivisionByZero for a nonzero dividend, InvalidOperation for the
0/0 case - instead of returning a quotient, falsifying the unconditional
claim. -/
theorem claim_C4_counterexample :
    (Money.mk 1 usd).truediv (.money ⟨0, usd⟩) = .error .divisionByZero ∧
    (Money.mk 1 usd).truediv (.scalar 0) = .error .divisionByZero ∧
    (Money.mk 0 usd).truediv (.money ⟨0, usd⟩) = .error .invalidOperation ∧
    (Money.mk 0 usd).truediv (.scalar 0) = .error .invalidOperation := by
  refine ⟨?_, ?_, ?_, ?_⟩ <;>
    simp [Money.truediv, decimalDiv, force_decimal, Currency.eq]

/-- Claim C4 amended: for equal currencies and a nonzero divisor amount,
Money over Money is the dimensionless exact quotient; different currency
codes fail with the mismatch error (whatever the amounts); Money over a
nonzero scalar scales by the reciprocal in the same currency; a zero
divisor instead raises DivisionByZero when the dividend amount is
nonzero and InvalidOperation when it is also zero; and non-Money over
Money always fails with the invalid-operand error. -/
theorem claim_C4_truediv (a : Money) :
    (∀ b : Money, a.currency.code = b.currency.code → b.amount ≠ 0 →
      a.truediv (.money b) = .ok (.decimalVal (a.amount / b.amount))) ∧
    (∀ b : Money, a.currency.code ≠ b.currency.code →
      a.truediv (.money b) = .error .currencyMismatch) ∧
    (∀ s : ℚ, s ≠ 0 →
      a.truediv (.scalar s) = .ok (.moneyVal ⟨a.amount / s, a.currency⟩)) ∧
    (∀ b : Money, b.amount = 0 → a.currency.code = b.currency.code →
      a.amount ≠ 0 → a.truediv (.money b) = .error .divisionByZero) ∧
    (∀ b : Money, b.amount = 0 → a.currency.code = b.currency.code →
      a.amount = 0 → a.truediv (.money b) = .error .invalidOperation) ∧
    (∀ v : Operand, a.rtruediv v = .error .invalidOperand) := by
  refine ⟨?_, ?_, ?_, ?_, ?_, fun v => rfl⟩
  · intro b hc hb; simp [Money.truediv, decimalDiv, Currency.eq, hc, hb]
  · intro b hc; simp [Money.truediv, Currency.eq, hc]
  · intro s hs; simp [Money.truediv, decimalDiv, force_decimal, hs]
  · intro b hb hc ha; simp [Money.truediv, decimalDiv, Currency.eq, hc, hb, ha]
  · intro b hb hc ha; simp [Money.truediv, decimalDiv, Currency.eq, hc, hb, ha]

/-- Claim C4 witness at concrete inputs. -/
theorem claim_C4_witness :
    (Money.mk 6 usd).truediv (.money ⟨2, usd⟩) = .ok (.decimalVal (6 / 2)) ∧
    (Money.mk 6 usd).truediv (.money ⟨2, eur⟩) = .error .currencyMismatch ∧
    (Money.mk 6 usd).truediv (.scalar 2) = .ok (.moneyVal ⟨6 / 2, usd⟩) ∧
    (Money.mk 6 usd).truediv (.money ⟨0, usd⟩) = .error .divisionByZero ∧
    (Money.mk 0 usd).truediv (.money ⟨0, usd⟩) = .error .invalidOperation ∧
    (Money.mk 6 usd).rtruediv .other = .error .invalidOperand :=
  ⟨(claim_C4_truediv ⟨6, usd⟩).1 ⟨2, usd⟩ rfl (by norm_num),
   (claim_C4_truediv ⟨6, usd⟩).2.1 ⟨2, eur⟩ (by decide),
   (claim_C4_truediv ⟨6, usd⟩).2.2.1 2 (by norm_num),
   (claim_C4_truediv ⟨6, usd⟩).2.2.2.1 ⟨0, usd⟩ rfl rfl (by norm_num),
   (claim_C4_truediv ⟨0, usd⟩).2.2.2.2.1 ⟨0, usd⟩ rfl rfl rfl,
   (claim_C4_truediv ⟨6, usd⟩).2.2.2.2.2 .other⟩

/-- Claim C9 counterexample: a failing numeric lookup raises
CurrencyDoesNotExist carrying the code argument, which is absent (None)
for a numeric lookup - not the queried numeric 000. -/
theorem claim_C9_counterexample :
    lookup_by_numeric "000" = .error (.currencyDoesNotExist none) ∧
    MoneyError.currencyDoesNotExist none ≠
      MoneyError.currencyDoesNotExist (some "000") := by
  exact ⟨rfl, by simp⟩

/-- Claim C9 amended: lookup by the code of any registered currency
returns a currency with that code; numeric lookup of 840 returns USD;
lookup of the absent code ZZZ fails with CurrencyDoesNotExist carrying
ZZZ; any failing code lookup carries the queried code; a failing numeric
lookup carries the absent code argument (None), not the queried
numeric. -/
theorem claim_C9_registry :
    (∀ p ∈ registrations, ∃ c : Currency,
      lookup_by_code p.1 = .ok c ∧ c.code = p.1) ∧
    (lookup_by_numeric "840" = .ok ⟨"USD", some "840"⟩) ∧
    (lookup_by_code "ZZZ" = .error (.currencyDoesNotExist (some "ZZZ"))) ∧
    (∀ code : String, CURRENCIES code = none →
      lookup_by_code code = .error (.currencyDoesNotExist (some code))) ∧
    (∀ n : String, n ≠ "" → CURRENCIES_BY_ISO n = none →
      lookup_by_numeric n = .error (.currencyDoesNotExist none)) := by
  refine ⟨?_, rfl, rfl, ?_, ?_⟩
  · intro p hp
    have hmem : p ∈ registrations.reverse := List.mem_reverse.mpr hp
    have hpred : (fun r => r.1 == p.1) p = true := by simp
    obtain ⟨b, hb, hpb⟩ :=
      find?_exists_of_mem (p := fun r => r.1 == p.1) hmem hpred
    refine ⟨⟨b.1, b.2⟩, ?_, by simpa using hpb⟩
    simp [lookup_by_code, get_currency, isoTruthy, CURRENCIES, hb]
  · intro code h
    simp [lookup_by_code, get_currency, isoTruthy, h]
  · intro n hn h
    simp [lookup_by_numeric, get_currency, isoTruthy, hn, h]

/-- Claim C9 witness at concrete inputs. -/
theorem claim_C9_witness :
    (∃ c : Currency, lookup_by_code "USD" = .ok c ∧ c.code = "USD") ∧
    lookup_by_code "ZZZ" = .error (.currencyDoesNotExist (some "ZZZ")) ∧
    lookup_by_numeric "000" = .error (.currencyDoesNotExist none) :=
  ⟨(claim_C9_registry).1 ("USD", some "840") (by decide),
   (claim_C9_registry).2.2.2.1 "ZZZ" rfl,
   (claim_C9_registry).2.2.2.2 "000" (by decide) rfl⟩


/-- Claim C7 witness at concrete inputs. -/
theorem claim_C7_witness :
    ((Money.mk (3/2) usd).round (some 0)).currency = usd ∧
    (Money.mk (3/2) usd).round none = (Money.mk (3/2) usd).round (some 0) :=
  ⟨(claim_C7_round ⟨3/2, usd⟩ 0).1, (claim_C7_round ⟨3/2, usd⟩ 0).2.1⟩

end Moneyed
